import Mathlib

/-!
Verification development for the IntelliPatent hybrid-search backend.

The Python sources `backend/api_server.py`, `backend/gemini_helper.py`,
`backend/data_loader.py` and `backend/sqlite_helper.py` are shallowly
embedded below.  External services (the Gemini generation model, the
embedding endpoints, the Pinecone index and the SQLite database) are
modelled as oracle fields of an `Env` record; each oracle is keyed by the
arguments the Python code feeds into the corresponding call.  A provider
call that may raise in Python is modelled either by a `GenOutcome` value
(for calls whose surrounding Python code catches the exception itself) or
by `Except String` (for calls whose exception propagates to the top-level
handler of the `/search` endpoint).
-/

namespace IntelliPatent

/-- Boolean test that `needle` occurs at the head of `hay` (character lists). -/
def matchesHead : List Char → List Char → Bool
  | [], _ => true
  | _ :: _, [] => false
  | a :: as, b :: bs => a == b && matchesHead as bs

/-- Boolean substring search over character lists. -/
def occursInAux (needle : List Char) : List Char → Bool
  | [] => matchesHead needle []
  | c :: cs => matchesHead needle (c :: cs) || occursInAux needle cs

/-- Python's `needle in hay` substring test on strings. -/
def occursIn (needle hay : String) : Bool :=
  occursInAux needle.data hay.data

/-- Python's `str.lower()` (structural version of `String.toLower`). -/
def strLower (s : String) : String :=
  String.mk (s.data.map Char.toLower)

/-- Python's `str.strip()` (structural version of `String.trim`). -/
def strTrim (s : String) : String :=
  String.mk (((s.data.dropWhile Char.isWhitespace).reverse.dropWhile Char.isWhitespace).reverse)

/-- Python's `str.startswith(pre)`. -/
def strStarts (s pre : String) : Bool :=
  matchesHead pre.data s.data

/-- Outcome of one `gemini_model.generate_content` call, as the Python
callers distinguish them: the call raised an exception, the response was
falsy or had no usable `text` attribute, or it produced text `s`. -/
inductive GenOutcome where
  | raiseErr (msg : String)
  | noText
  | text (s : String)
deriving DecidableEq, Repr

/-- Pydantic model `ConversationTurn` from `api_server.py`:
`question: str`, `answer: Optional[str]`. -/
structure ConversationTurn where
  question : String
  answer : Option String
deriving DecidableEq, Repr

/-- Pydantic model `SearchRequest` from `api_server.py`. -/
structure SearchRequest where
  query : String
  history : List ConversationTurn := []
  top_k : Nat := 5
  hybrid : Bool := false
  summary : Bool := false
deriving DecidableEq, Repr

/-- One row of the SQLite table `patent_chunks` (schema in
`sqlite_helper.py`): all seven PatentRecord fields. -/
structure ChunkRow where
  vector_id : String
  patent_number : String
  title : String
  description : String
  abstract : String
  claims_text : String
  detailed_summary : String
deriving DecidableEq, Repr

/-- Dictionary built per row by `fetch_metadata_from_sqlite` in
`api_server.py`: only the four selected columns. -/
structure FetchedRecord where
  vector_id : String
  patent_number : String
  title : String
  detailed_summary : String
deriving DecidableEq, Repr

/-- Result dictionary of `check_followup_relevance_multi`. -/
structure FollowupRelevance where
  is_related : Bool
  related_to_index : Option Nat
  related_turn : Option ConversationTurn
deriving DecidableEq, Repr

/-- Oracle environment for all external calls made by the `/search`
endpoint.  Embeddings are abstracted to opaque `Nat` tokens (their numeric
contents never influence control flow in the Python code). -/
structure Env where
  /-- Gemini call inside `classify_query_type`, keyed by the query string. -/
  genClassify : String → GenOutcome
  /-- Gemini call inside `check_followup_relevance_multi`, keyed by the
  turn and the new question. -/
  genRelevance : ConversationTurn → String → GenOutcome
  /-- Gemini call inside `generate_summary`, keyed by query and context. -/
  genSummary : String → String → GenOutcome
  /-- Gemini call inside `generate_generic_answer`, keyed by the query. -/
  genGeneric : String → GenOutcome
  /-- `generate_dense_embedding`: catches internally, `None` on failure. -/
  embed : String → Option Nat
  /-- `generate_sparse_embedding`: catches internally, `None` on failure. -/
  sparse : String → Option Nat
  /-- `index.query`: an exception here propagates to the handler; on
  success the list of match ids is returned. -/
  pquery : Nat → Option Nat → Nat → Except String (List String)
  /-- Contents of the `patent_chunks` SQLite table. -/
  db : List ChunkRow

/-- The `/search` response dictionary; `none` models an absent key. -/
structure Response where
  results : Option (List FetchedRecord) := none
  message : Option String := none
  generic_answer : Option String := none
  live_summary : Option String := none
  related : Option Bool := none
  note : Option String := none
  error : Option String := none
deriving DecidableEq, Repr

/-- Count of external retrieval-related calls issued while handling one
request (used to state the "no retrieval / no classification" claims). -/
structure CallLog where
  embedCalls : Nat := 0
  sparseCalls : Nat := 0
  indexQueryCalls : Nat := 0
  dbFetchCalls : Nat := 0
  classifyCalls : Nat := 0
deriving DecidableEq, Repr

/-- Function `classify_query_type` from `gemini_helper.py`: any exception,
missing text, or text outside the three labels yields `"irrelevant"`. -/
def classify_query_type (env : Env) (query : String) : String :=
  match env.genClassify query with
  | .raiseErr _ => "irrelevant"
  | .noText => "irrelevant"
  | .text s =>
    let category := strLower (strTrim s)
    if category == "irrelevant" || category == "generic" || category == "specific" then
      category
    else "irrelevant"

/-- Function `generate_summary` from `gemini_helper.py`: returns the
stripped response text; any exception (including the attribute access on a
text-less response) is caught and yields the empty string. -/
def generate_summary (env : Env) (query result : String) : String :=
  match env.genSummary query result with
  | .raiseErr _ => ""
  | .noText => ""
  | .text s => strTrim s

/-- Function `generate_generic_answer` from `gemini_helper.py`. -/
def generate_generic_answer (env : Env) (query : String) : String :=
  match env.genGeneric query with
  | .raiseErr _ => "Unable to generate a response."
  | .noText => "Unable to generate a response."
  | .text s => strTrim s

/-- Condition of the history filter in `search_patents`
(`api_server.py` line 115): `turn.answer` must be truthy (present and
non-empty) and must not contain the marker substring. -/
def turnKept (t : ConversationTurn) : Bool :=
  match t.answer with
  | none => false
  | some a => (!(a == "")) && !(occursIn "not relevant to patents" (strLower a))

/-- The `relevant_turns` list built at the start of `search_patents`. -/
def relevantTurns (history : List ConversationTurn) : List ConversationTurn :=
  history.filter turnKept

/-- Function `fetch_metadata_from_sqlite` from `api_server.py`: the SQL
query `SELECT vector_id, patent_number, title, detailed_summary FROM
patent_chunks WHERE vector_id IN (...)` returns each table row whose key
occurs in the id list, once, in table order. -/
def fetch_metadata_from_sqlite (db : List ChunkRow) (vector_ids : List String) :
    List FetchedRecord :=
  (db.filter (fun row => vector_ids.contains row.vector_id)).map
    (fun row =>
      { vector_id := row.vector_id
        patent_number := row.patent_number
        title := row.title
        detailed_summary := row.detailed_summary })

/-- Whether the Gemini yes/no relatedness probe for one turn came back
affirmative.  A raised exception or a text-less response counts as not
affirmative (the Python loop `continue`s in both cases). -/
def affirmativeAnswer (env : Env) (t : ConversationTurn) (new_question : String) : Bool :=
  match env.genRelevance t new_question with
  | .raiseErr _ => false
  | .noText => false
  | .text s =>
    let r := strLower (strTrim s)
    strStarts r "yes" || strStarts r "y"

/-- Loop body of `check_followup_relevance_multi`: `i` is the enumeration
counter over the reversed list and `n` the original list length, so an
affirmative hit at counter `i` reports original index `n - 1 - i`. -/
def relScan (env : Env) (new_question : String) (n : Nat) :
    Nat → List ConversationTurn → FollowupRelevance
  | _, [] => ⟨false, none, none⟩
  | i, t :: rest =>
    if affirmativeAnswer env t new_question then
      ⟨true, some (n - 1 - i), some t⟩
    else relScan env new_question n (i + 1) rest

/-- Function `check_followup_relevance_multi` from `api_server.py`: scan
the relevant turns most-recent first, return on the first affirmative
relatedness answer. -/
def check_followup_relevance_multi (env : Env) (relevant_turns : List ConversationTurn)
    (new_question : String) : FollowupRelevance :=
  relScan env new_question relevant_turns.length 0 relevant_turns.reverse

/-- Fixed list `technical_terms` from `search_patents`. -/
def technical_terms : List String :=
  ["microprocessor", "pipeline", "semiconductor", "AI", "neural", "cache",
   "encryption", "robotics", "sensor", "optics"]

/-- The `force_specific` override: some technical term occurs
(case-insensitively) in the query text. -/
def forceSpecific (query_text : String) : Bool :=
  technical_terms.any (fun term => occursIn (strLower term) (strLower query_text))

/-- Fixed list `summary_keywords` from `search_patents`. -/
def summary_keywords : List String :=
  ["summary", "summarize", "explain", "details", "list", "points",
   "highlight", "brief", "short", "lines", "bullet"]

/-- The `is_summary_request` test: some keyword occurs in the lowercased
query text (the keywords are already lowercase). -/
def isSummaryRequest (query_text : String) : Bool :=
  summary_keywords.any (fun word => occursIn word (strLower query_text))

/-- The `{"error": str(e)}` dictionary returned by the top-level handler. -/
def errorPayload (e : String) : Response := { error := some e }

/-- The shared retrieval block of `search_patents` (it appears three times
in the source, varying only in the search text and in the
message / `related` / `note` decorations, which are passed as
parameters here): dense embedding, optional sparse embedding, index query,
no-match fallback, metadata fetch, optional live summary. -/
def runRetrieval (env : Env) (req : SearchRequest) (searchText : String)
    (relatedFlag : Option Bool) (noMatchMsg : String) (noMatchNote : Option String)
    (resultNote : Option String) (log : CallLog) :
    Except String Response × CallLog :=
  let log1 := { log with embedCalls := log.embedCalls + 1 }
  match env.embed searchText with
  | none => (Except.ok (errorPayload "Failed to generate dense embedding."), log1)
  | some dense =>
    let sparseAnd : Option Nat × CallLog :=
      if req.hybrid then
        (env.sparse searchText, { log1 with sparseCalls := log1.sparseCalls + 1 })
      else (none, log1)
    let log2 := sparseAnd.2
    let log3 := { log2 with indexQueryCalls := log2.indexQueryCalls + 1 }
    match env.pquery dense sparseAnd.1 req.top_k with
    | Except.error e => (Except.error e, log3)
    | Except.ok vector_ids =>
      if vector_ids.isEmpty then
        (Except.ok
          { results := some []
            message := some noMatchMsg
            generic_answer := some (generate_generic_answer env searchText)
            related := relatedFlag
            note := noMatchNote }, log3)
      else
        let log4 := { log3 with dbFetchCalls := log3.dbFetchCalls + 1 }
        let results := fetch_metadata_from_sqlite env.db vector_ids
        if req.summary then
          let combined_text := String.intercalate " "
            (results.filterMap (fun r =>
              if r.detailed_summary == "" then none else some r.detailed_summary))
          let live_summary :=
            if strTrim combined_text == "" then "No content available for summary."
            else generate_summary env searchText combined_text
          (Except.ok
            { results := some results
              live_summary := some live_summary
              related := relatedFlag
              note := resultNote }, log4)
        else
          (Except.ok { results := some results, related := relatedFlag, note := resultNote },
           log4)

/-- Body of the `/search` endpoint `search_patents` (the part inside the
top-level `try`), with the call log threaded through.  An `Except.error`
result models an exception escaping to the top-level handler. -/
def route (env : Env) (req : SearchRequest) : Except String Response × CallLog :=
  let query_text := strTrim req.query
  let relevant_turns := relevantTurns req.history
  if relevant_turns.isEmpty then
    let log1 : CallLog := { classifyCalls := 1 }
    let query_type := classify_query_type env query_text
    let force_specific := forceSpecific query_text
    if query_type == "irrelevant" && !force_specific then
      (Except.ok
        { results := some []
          message := some "Your query is not relevant to patents or intellectual property." },
       log1)
    else if query_type == "generic" && !force_specific then
      (Except.ok
        { results := some []
          message := some "Your query is patent-related but too general; here\x27s a direct answer."
          generic_answer := some (generate_generic_answer env query_text) },
       log1)
    else
      runRetrieval env req query_text none
        "No relevant matches found; here\x27s a direct Gemini answer." none none log1
  else
    if isSummaryRequest query_text then
      let last_relevant_turn := relevant_turns.getLastD { question := "", answer := none }
      let summary_text := generate_summary env query_text (last_relevant_turn.answer.getD "")
      (Except.ok
        { results := some []
          live_summary := some summary_text
          related := some true
          note := some ("Summary of previous response (Query #" ++
            toString relevant_turns.length ++ ")") },
       {})
    else
      let log1 : CallLog := { classifyCalls := 1 }
      let current_query_type := classify_query_type env query_text
      let force_specific := forceSpecific query_text
      if current_query_type == "irrelevant" && !force_specific then
        (Except.ok
          { results := some []
            message := some "Your query is not relevant to patents or intellectual property."
            related := some false },
         log1)
      else
        let relevance_result := check_followup_relevance_multi env relevant_turns query_text
        if !relevance_result.is_related then
          if current_query_type == "generic" && !force_specific then
            (Except.ok
              { results := some []
                message := some "This is a new topic unrelated to previous queries."
                generic_answer := some (generate_generic_answer env query_text)
                related := some false },
             log1)
          else
            runRetrieval env req query_text (some false)
              "No relevant matches found for this new topic." none none log1
        else
          let related_turn := relevance_result.related_turn.getD { question := "", answer := none }
          let related_index := relevance_result.related_to_index.getD 0
          let augmented_query :=
            "Previous Question: " ++ related_turn.question ++
            "\nPrevious Answer: " ++ (related_turn.answer.getD "") ++
            "\nFollow-up Question: " ++ query_text
          let log2 := { log1 with classifyCalls := log1.classifyCalls + 1 }
          let followup_query_type := classify_query_type env augmented_query
          if followup_query_type == "generic" then
            (Except.ok
              { results := some []
                message := some "This follow-up is relevant but generic."
                generic_answer := some (generate_generic_answer env augmented_query)
                related := some true
                note := some ("Based on context from query #" ++
                  toString (related_index + 1)) },
             log2)
          else
            runRetrieval env req augmented_query (some true)
              "No relevant matches found for this follow-up."
              (some ("Based on context from query #" ++ toString (related_index + 1)))
              (some ("Results based on context from query #" ++ toString (related_index + 1)))
              log2

/-- The `/search` endpoint with its top-level `try/except`: a raised
exception becomes the `{"error": str(e)}` payload. -/
def search_patents (env : Env) (req : SearchRequest) : Response × CallLog :=
  match route env req with
  | (Except.ok r, log) => (r, log)
  | (Except.error e, log) => (errorPayload e, log)

/-- One source document of the ingestion pipeline, carrying the fields
`process_and_upsert_patents` extracts from the parsed JSON (English title,
abstract, description and the concatenated English claims text);
`patent_number` is `none` when the JSON has no such key. -/
structure PatentDoc where
  patent_number : Option String
  title : String
  abstract : String
  description : String
  claims_text : String
deriving DecidableEq, Repr

/-- The `combined_text = f"{abstract} {claims_text}".strip()` of
`data_loader.py`. -/
def combinedText (d : PatentDoc) : String :=
  strTrim (d.abstract ++ " " ++ d.claims_text)

/-- An exception that aborts the ingestion run.  The only reachable one:
`data_loader.py` line 76 calls `generate_summary(combined_text)` with a
single argument, while `gemini_helper.generate_summary(query, result)`
takes two required parameters, so Python raises `TypeError` at the call
site (outside the callee's own `try`, and outside any `try` of the
caller's loop body except the file-loading one), aborting the whole run. -/
inductive IngestError where
  | summaryArityTypeError (patent_number : String)
deriving DecidableEq, Repr

/-- Final observable state of an ingestion run: the patent numbers printed
as skipped for empty `combined_text`, and the `total_chunks` counter the
run reports at the end. -/
structure IngestReport where
  skipped : List String
  total_chunks : Nat
deriving DecidableEq, Repr

/-- The `patent.get("patent_number", f"patent_{file_idx}")` default. -/
def patentNumberOf (idx : Nat) (d : PatentDoc) : String :=
  d.patent_number.getD ("patent_" ++ toString idx)

/-- Document loop of `process_and_upsert_patents` (`data_loader.py`
lines 47-117): a document with empty `combined_text` is skipped (recorded
and the loop continues); any document with non-empty `combined_text`
reaches the one-argument `generate_summary(combined_text)` call and the
run aborts with the `TypeError` described at `IngestError`, so the
per-chunk embedding/upsert code below that call is unreachable. -/
def ingestGo (docs : List PatentDoc) (idx : Nat) (skipped : List String)
    (total_chunks : Nat) : Except IngestError IngestReport :=
  match docs with
  | [] => Except.ok { skipped := skipped, total_chunks := total_chunks }
  | d :: rest =>
    let pn := patentNumberOf idx d
    if combinedText d == "" then
      ingestGo rest (idx + 1) (skipped ++ [pn]) total_chunks
    else
      Except.error (IngestError.summaryArityTypeError pn)

/-- Function `process_and_upsert_patents` from `data_loader.py`, applied
to the already-loaded documents. -/
def process_and_upsert_patents (docs : List PatentDoc) : Except IngestError IngestReport :=
  ingestGo docs 0 [] 0

deriving instance DecidableEq for Except

/-- The skip log produced by a run over documents that are all skipped:
one patent number per document, in order, starting at file index `idx`. -/
def skippedNames : Nat → List PatentDoc → List String
  | _, [] => []
  | idx, d :: rest => patentNumberOf idx d :: skippedNames (idx + 1) rest

/-- A neutral oracle environment used as the base of concrete witnesses. -/
def envBase : Env :=
  { genClassify := fun _ => GenOutcome.noText
    genRelevance := fun _ _ => GenOutcome.noText
    genSummary := fun _ _ => GenOutcome.noText
    genGeneric := fun _ => GenOutcome.noText
    embed := fun _ => none
    sparse := fun _ => none
    pquery := fun _ _ _ => Except.error "index unavailable"
    db := [] }

/-- Witness environment for the summary short-circuit scenario. -/
def envW1 : Env :=
  { envBase with
    genClassify := fun _ => GenOutcome.text "irrelevant"
    genSummary := fun _ _ => GenOutcome.text " A summary of patent X. " }

/-- Witness request: one relevant prior turn plus a summary-marker query. -/
def reqW1 : SearchRequest :=
  { query := "Can you summarize that?"
    history := [{ question := "What is a neural network patent?"
                  answer := some "answer about patent X" }] }

/-- Witness environment for the relatedness scan: the probe for the turn
with question `q3` raises, the probe for `q2` answers yes, the probe for
`q1` answers no. -/
def envW2 : Env :=
  { envBase with
    genRelevance := fun t _ =>
      if t.question == "q3" then GenOutcome.raiseErr "boom"
      else if t.question == "q2" then GenOutcome.text " Yes, it is. "
      else GenOutcome.text "no" }

/-- Witness turn list for the relatedness scan (chronological order). -/
def turnsW2 : List ConversationTurn :=
  [{ question := "q1", answer := some "a1" },
   { question := "q2", answer := some "a2" },
   { question := "q3", answer := some "a3" }]

/-- Witness environment whose classifier labels everything irrelevant. -/
def envW3 : Env :=
  { envBase with genClassify := fun _ => GenOutcome.text "Irrelevant" }

/-- Witness request with no history and an off-topic query. -/
def reqW3 : SearchRequest := { query := "What is the weather today?" }

/-- Witness metadata table: two rows with distinct keys. -/
def dbW : List ChunkRow :=
  [{ vector_id := "id1", patent_number := "P1", title := "T1",
     description := "D1", abstract := "A1", claims_text := "C1",
     detailed_summary := "S1" },
   { vector_id := "id2", patent_number := "P2", title := "T2",
     description := "D2", abstract := "A2", claims_text := "C2",
     detailed_summary := "S2" }]

/-- Witness id list: a duplicated matched id plus an unmatched one. -/
def idsW : List String := ["id2", "missing", "id2"]

/-- Witness environment for the retrieval path: classifier says specific,
embedding succeeds, the index returns one match, the table holds its row. -/
def envW6 : Env :=
  { envBase with
    genClassify := fun _ => GenOutcome.text "specific"
    embed := fun _ => some 7
    pquery := fun _ _ _ => Except.ok ["id1"]
    db := dbW }

/-- Witness request for the retrieval path (no history). -/
def reqW6 : SearchRequest := { query := "optical cable cladding patent US123" }

/-- Witness environment whose generation model is down: every generation
call raises. -/
def envOutage : Env :=
  { envBase with
    genClassify := fun _ => GenOutcome.raiseErr "503 service unavailable"
    genRelevance := fun _ _ => GenOutcome.raiseErr "503 service unavailable"
    genSummary := fun _ _ => GenOutcome.raiseErr "503 service unavailable"
    genGeneric := fun _ => GenOutcome.raiseErr "503 service unavailable" }

/-- Witness request for the outage scenario. -/
def reqW10 : SearchRequest := { query := "How do I bake bread?" }

/-- Claim C4's reading of the relevant-turn filter, for comparison with
the source-derived `relevantTurns`: membership depends only on the answer
text (absent answers read as empty text) not containing the marker. -/
def relevantTurnsClaim (history : List ConversationTurn) : List ConversationTurn :=
  history.filter
    (fun t => !(occursIn "not relevant to patents" (strLower (t.answer.getD ""))))

/-- Witness document with empty abstract and claims text. -/
def docEmpty : PatentDoc :=
  { patent_number := some "EP0001", title := "T0", abstract := "",
    description := "some description", claims_text := " " }

/-- Witness document with non-empty combined text. -/
def docFull : PatentDoc :=
  { patent_number := some "EP0002", title := "T2", abstract := "an abstract",
    description := "", claims_text := "claim one" }

end IntelliPatent

namespace IntelliPatent

/-- Shifting both the length parameter and the enumeration counter of the
relatedness scan by one leaves the result unchanged. -/
theorem relScan_shift (env : Env) (q : String) (n : Nat) :
    ∀ (L : List ConversationTurn) (i : Nat),
      relScan env q (n + 1) (i + 1) L = relScan env q n i L := by
  intro L
  induction L with
  | nil => intro i; rfl
  | cons t rest ih =>
    intro i
    simp only [relScan]
    by_cases h : affirmativeAnswer env t q
    · simp only [h, if_true, FollowupRelevance.mk.injEq, Option.some.injEq]
      exact ⟨trivial, by omega, trivial⟩
    · simp only [h, if_false, Bool.false_eq_true]
      exact ih (i + 1)

/-- The scan over an empty relevant-turn list reports not related. -/
theorem check_followup_nil (env : Env) (q : String) :
    check_followup_relevance_multi env [] q = ⟨false, none, none⟩ := rfl

/-- Unfolding of the scan at the most recent turn: an affirmative probe
returns that turn with its chronological index, anything else (a negative
answer, a raised provider call, or a text-less response) continues the
scan over the older turns. -/
theorem check_followup_snoc (env : Env) (q : String) (ts : List ConversationTurn)
    (t : ConversationTurn) :
    check_followup_relevance_multi env (ts ++ [t]) q =
      if affirmativeAnswer env t q then ⟨true, some ts.length, some t⟩
      else check_followup_relevance_multi env ts q := by
  unfold check_followup_relevance_multi
  simp only [List.reverse_append, List.reverse_cons, List.reverse_nil, List.nil_append,
    List.singleton_append, List.length_append, List.length_cons, List.length_nil]
  rw [relScan]
  by_cases h : affirmativeAnswer env t q
  · simp only [h, if_true, FollowupRelevance.mk.injEq, Option.some.injEq]
    exact ⟨trivial, by omega, trivial⟩
  · simp only [h, if_false, Bool.false_eq_true]
    have := relScan_shift env q ts.length ts.reverse 0
    simpa using this

/-- C2: the relatedness scan examines the relevant turns most-recent
first, treats a raised provider call or a text-less response as a
non-affirmative answer and continues with older turns, stops at the first
affirmative turn in that scan order and reports it together with its index
in the chronological relevant-turn list, and reports
`is_related = false` with no index and no turn when no turn is
affirmative.  Stated as: the empty-scan result, the unfolding at the most
recent turn, `is_related` equals "some turn is affirmative", the shape of
the negative result, and the first-affirmative characterization. -/
theorem spec_C2 (env : Env) (q : String) :
    check_followup_relevance_multi env [] q = ⟨false, none, none⟩ ∧
    (∀ ts t, check_followup_relevance_multi env (ts ++ [t]) q =
      if affirmativeAnswer env t q then ⟨true, some ts.length, some t⟩
      else check_followup_relevance_multi env ts q) ∧
    (∀ turns, (check_followup_relevance_multi env turns q).is_related =
      turns.any (fun t => affirmativeAnswer env t q)) ∧
    (∀ turns, (check_followup_relevance_multi env turns q).is_related = false →
      check_followup_relevance_multi env turns q = ⟨false, none, none⟩) ∧
    (∀ turns j (hj : j < turns.length),
      affirmativeAnswer env (turns.get ⟨j, hj⟩) q = true →
      (∀ k (hk : k < turns.length), j < k →
        affirmativeAnswer env (turns.get ⟨k, hk⟩) q = false) →
      check_followup_relevance_multi env turns q =
        ⟨true, some j, some (turns.get ⟨j, hj⟩)⟩) := by
  refine ⟨check_followup_nil env q, check_followup_snoc env q, ?_, ?_, ?_⟩
  · intro turns
    induction turns using List.reverseRecOn with
    | nil => rfl
    | append_singleton ts t ih =>
      rw [check_followup_snoc]
      by_cases h : affirmativeAnswer env t q
      · simp [h]
      · simp [h, ih]
  · intro turns
    induction turns using List.reverseRecOn with
    | nil => intro _; rfl
    | append_singleton ts t ih =>
      rw [check_followup_snoc]
      by_cases h : affirmativeAnswer env t q
      · simp [h]
      · simp only [h, if_false, Bool.false_eq_true]
        exact ih
  · intro turns
    induction turns using List.reverseRecOn with
    | nil => intro j hj; simp at hj
    | append_singleton ts t ih =>
      intro j hj haff hlater
      have hlen : (ts ++ [t]).length = ts.length + 1 := by simp
      rw [check_followup_snoc]
      rcases Nat.lt_succ_iff_lt_or_eq.mp (by omega : j < ts.length + 1) with hlt | heq
      · have hts : ts.length < (ts ++ [t]).length := by omega
        have htaff : affirmativeAnswer env t q = false := by
          have := hlater ts.length hts hlt
          simpa [List.get_eq_getElem, List.getElem_concat_length] using this
        rw [htaff]
        simp only [Bool.false_eq_true, if_false]
        have hget : (ts ++ [t]).get ⟨j, hj⟩ = ts.get ⟨j, hlt⟩ := by
          simp [List.get_eq_getElem, List.getElem_append_left hlt]
        have haff' : affirmativeAnswer env (ts.get ⟨j, hlt⟩) q = true := by
          rw [← hget]; exact haff
        have hlater' : ∀ k (hk : k < ts.length), j < k →
            affirmativeAnswer env (ts.get ⟨k, hk⟩) q = false := by
          intro k hk hjk
          have hk' : k < (ts ++ [t]).length := by omega
          have hgk : (ts ++ [t]).get ⟨k, hk'⟩ = ts.get ⟨k, hk⟩ := by
            simp [List.get_eq_getElem, List.getElem_append_left hk]
          have := hlater k hk' hjk
          rw [hgk] at this
          exact this
        rw [ih j hlt haff' hlater', hget]
      · subst heq
        have hget : (ts ++ [t]).get ⟨ts.length, hj⟩ = t := by
          simp [List.get_eq_getElem, List.getElem_concat_length]
        rw [hget] at haff
        rw [haff]
        simp [hget]

/-- Closed witness for C2: in a three-turn history where the probe for the
newest turn raises (and is skipped) and the middle turn answers yes, the
scan reports the middle turn with chronological index 1. -/
theorem spec_C2_witness :
    check_followup_relevance_multi envW2 turnsW2 "nq" =
      ⟨true, some 1, some { question := "q2", answer := some "a2" }⟩ :=
  (spec_C2 envW2 "nq").2.2.2.2 turnsW2 1 (by decide) (by decide)
    (by
      intro k hk hlt
      have h3 : k < 3 := by simpa [turnsW2] using hk
      have h2 : k = 2 := by omega
      subst h2
      have hg : turnsW2.get ⟨2, hk⟩ = { question := "q3", answer := some "a3" } := rfl
      rw [hg]
      decide)

/-- Counterexample for C4: a turn whose answer is the empty string has an
answer text that does not contain the marker, so the claim admits it into
the RelevantTurn subset, but the source filter (which also requires the
answer to be truthy) excludes it. -/
theorem spec_C4_counterexample :
    relevantTurns [{ question := "q1", answer := some "" }] = [] ∧
    relevantTurnsClaim [{ question := "q1", answer := some "" }] =
      [{ question := "q1", answer := some "" }] := by
  constructor <;> decide

/-- C4 (amended): the RelevantTurn subset is the subsequence of the
history, in conversation order, of the turns whose answer is present,
non-empty, and does not contain the "not relevant" marker
(case-insensitively). -/
theorem spec_C4_amended (history : List ConversationTurn) :
    (relevantTurns history).Sublist history ∧
    (∀ t, t ∈ relevantTurns history ↔
      t ∈ history ∧ ∃ a, t.answer = some a ∧ a ≠ "" ∧
        occursIn "not relevant to patents" (strLower a) = false) := by
  constructor
  · exact List.filter_sublist history
  · intro t
    rw [relevantTurns, List.mem_filter]
    constructor
    · rintro ⟨hmem, hkept⟩
      refine ⟨hmem, ?_⟩
      unfold turnKept at hkept
      cases h : t.answer with
      | none => rw [h] at hkept; exact absurd hkept (by simp)
      | some a =>
        rw [h] at hkept
        simp only [Bool.and_eq_true, Bool.not_eq_true'] at hkept
        exact ⟨a, rfl, by simpa using hkept.1, hkept.2⟩
    · rintro ⟨hmem, a, ha, hne, hocc⟩
      refine ⟨hmem, ?_⟩
      unfold turnKept
      rw [ha]
      simp [hne, hocc]

/-- C7: the `/search` handler is a total function of the request and the
oracle environment; when the routing body raises, the handler returns the
`{"error": str(e)}` payload (a dictionary whose only key is `error`)
instead of propagating the exception. -/
theorem spec_C7 (env : Env) (req : SearchRequest) :
    (∃ r, (route env req).1 = Except.ok r ∧
      search_patents env req = (r, (route env req).2)) ∨
    (∃ e, (route env req).1 = Except.error e ∧
      search_patents env req = (errorPayload e, (route env req).2) ∧
      (errorPayload e).error = some e ∧ (errorPayload e).results = none ∧
      (errorPayload e).message = none ∧ (errorPayload e).generic_answer = none ∧
      (errorPayload e).live_summary = none ∧ (errorPayload e).related = none ∧
      (errorPayload e).note = none) := by
  rcases h : route env req with ⟨res, log⟩
  cases res with
  | ok r =>
    left
    exact ⟨r, by simp [h], by simp [search_patents, h]⟩
  | error e =>
    right
    exact ⟨e, by simp [h], by simp [search_patents, h], rfl, rfl, rfl, rfl, rfl, rfl, rfl⟩

/-- C8: a document whose combined abstract+claims text is empty (after
trimming) is skipped entirely: it is only recorded as skipped, nothing
else in the run state changes, and the loop continues with the remaining
documents; consequently a run over documents that are all empty produces
zero chunks and reports every document as skipped. -/
theorem spec_C8 :
    (∀ (idx : Nat) (d : PatentDoc) (rest : List PatentDoc)
      (skipped : List String) (total_chunks : Nat),
      combinedText d = "" →
      ingestGo (d :: rest) idx skipped total_chunks =
        ingestGo rest (idx + 1) (skipped ++ [patentNumberOf idx d]) total_chunks) ∧
    (∀ (docs : List PatentDoc) (idx : Nat) (skipped : List String)
      (total_chunks : Nat),
      (∀ d, d ∈ docs → combinedText d = "") →
      ingestGo docs idx skipped total_chunks =
        Except.ok { skipped := skipped ++ skippedNames idx docs
                    total_chunks := total_chunks }) := by
  constructor
  · intro idx d rest skipped total_chunks h
    simp [ingestGo, h]
  · intro docs
    induction docs with
    | nil => intro idx skipped total_chunks _; simp [ingestGo, skippedNames]
    | cons d rest ih =>
      intro idx skipped total_chunks hall
      have hd : combinedText d = "" := hall d (by simp)
      rw [ingestGo]
      simp only [hd]
      simp only [skippedNames]
      rw [ih (idx + 1) (skipped ++ [patentNumberOf idx d]) total_chunks
        (fun d' hd' => hall d' (by simp [hd']))]
      simp

/-- Closed witness for C8: a run over one empty document followed by one
empty document skips both and reports zero chunks. -/
theorem spec_C8_witness :
    combinedText docEmpty = "" ∧
    ingestGo [docEmpty, docEmpty] 0 [] 0 =
      ingestGo [docEmpty] 1 ["EP0001"] 0 ∧
    process_and_upsert_patents [docEmpty, docEmpty] =
      Except.ok { skipped := ["EP0001", "EP0001"], total_chunks := 0 } :=
  ⟨by decide,
   by
    have h := spec_C8.1 0 docEmpty [docEmpty] [] 0 (by decide)
    simpa using h,
   by
    have h := spec_C8.2 [docEmpty, docEmpty] 0 [] 0 (by intro d hd; fin_cases hd <;> decide)
    simpa [process_and_upsert_patents] using h⟩

/-- C9 (code bug): the ingestion pipeline cannot reach its per-chunk
embedding-failure handling at all.  `data_loader.py` line 76 calls
`generate_summary(combined_text)` with one argument while
`gemini_helper.generate_summary(query, result)` has two required
parameters, so the first document with non-empty combined text raises an
uncaught `TypeError` and aborts the whole run: no chunk of any document is
ever processed, later documents are not reached, and no error count is
reported (the source counts only successfully processed chunks).  This
theorem evaluates the pipeline at such a failing input: with two
processable documents the run aborts at the first one. -/
theorem spec_C9_crash_eval :
    process_and_upsert_patents [docFull, { docFull with patent_number := some "EP0003" }] =
      Except.error (IngestError.summaryArityTypeError "EP0002") := by
  decide

/-- Shared route lemma: with no relevant prior turn, a classification of
`irrelevant` and no technical-term override, the router answers with the
rejection message only, after exactly one classification call and no
embedding, index, or metadata-store call. -/
theorem route_fresh_rejects (env : Env) (req : SearchRequest)
    (h1 : relevantTurns req.history = [])
    (h2 : classify_query_type env (strTrim req.query) = "irrelevant")
    (h3 : forceSpecific (strTrim req.query) = false) :
    route env req =
      (Except.ok
        { results := some []
          message := some "Your query is not relevant to patents or intellectual property." },
       { classifyCalls := 1 }) := by
  simp [route, h1, h2, h3]

/-- C1: when the history yields at least one relevant turn and the query
contains a summary keyword, the router returns the summary generated from
the most recent relevant turn's answer, with empty results and
`related = true`, and the call log stays at its initial (all-zero) value:
no embedding, no sparse embedding, no index query, no metadata fetch and
no query-type classification are issued.  The theorem holds for every
oracle environment, in particular for environments whose classifier would
label the query irrelevant, which shows the check precedes the
irrelevance check and all later branch checks. -/
theorem spec_C1 (env : Env) (req : SearchRequest)
    (hrel : relevantTurns req.history ≠ [])
    (hsum : isSummaryRequest (strTrim req.query) = true) :
    route env req =
      (Except.ok
        { results := some []
          live_summary := some (generate_summary env (strTrim req.query)
            (((relevantTurns req.history).getLastD
              { question := "", answer := none }).answer.getD ""))
          related := some true
          note := some ("Summary of previous response (Query #" ++
            toString (relevantTurns req.history).length ++ ")") },
       {}) := by
  obtain ⟨a, as, hL⟩ := List.exists_cons_of_ne_nil hrel
  simp [route, hL, hsum]

/-- Closed witness for C1: a summary follow-up over one relevant turn, in
an environment whose classifier labels everything irrelevant (the
short-circuit still wins). -/
theorem spec_C1_witness :
    relevantTurns reqW1.history ≠ [] ∧
    isSummaryRequest (strTrim reqW1.query) = true ∧
    route envW1 reqW1 =
      (Except.ok
        { results := some []
          live_summary := some "A summary of patent X."
          related := some true
          note := some "Summary of previous response (Query #1)" },
       {}) :=
  ⟨by decide, by decide,
   by rw [spec_C1 envW1 reqW1 (by decide) (by decide)]; decide⟩

/-- C3: with no relevant prior turn, a classification of `irrelevant` and
no technical-term override, the router returns empty results and the
rejection message; the response carries no `generic_answer` and no
`related` key (both are absent by the returned literal), and the call log
records one classification and zero embedding, index and metadata-store
calls. -/
theorem spec_C3 (env : Env) (req : SearchRequest)
    (h1 : relevantTurns req.history = [])
    (h2 : classify_query_type env (strTrim req.query) = "irrelevant")
    (h3 : forceSpecific (strTrim req.query) = false) :
    route env req =
      (Except.ok
        { results := some []
          message := some "Your query is not relevant to patents or intellectual property." },
       { classifyCalls := 1 }) :=
  route_fresh_rejects env req h1 h2 h3

/-- Closed witness for C3: empty history and an off-topic weather query. -/
theorem spec_C3_witness :
    relevantTurns reqW3.history = [] ∧
    classify_query_type envW3 (strTrim reqW3.query) = "irrelevant" ∧
    forceSpecific (strTrim reqW3.query) = false ∧
    route envW3 reqW3 =
      (Except.ok
        { results := some []
          message := some "Your query is not relevant to patents or intellectual property." },
       { classifyCalls := 1 }) :=
  ⟨by decide, by decide, by decide,
   spec_C3 envW3 reqW3 (by decide) (by decide) (by decide)⟩

/-- Auxiliary counting lemma for the metadata fetch: over a table with
pairwise-distinct keys, the number of rows satisfying a key-match
conjoined with any further condition is one when some row satisfies it and
zero otherwise. -/
theorem countP_key_nodup (q : ChunkRow → Bool) (x : String) :
    ∀ db : List ChunkRow, (db.map (fun r => r.vector_id)).Nodup →
      db.countP (fun row => (row.vector_id == x) && q row) =
        if db.any (fun row => (row.vector_id == x) && q row) then 1 else 0 := by
  intro db
  induction db with
  | nil => intro _; simp
  | cons r rest ih =>
    intro hnd
    obtain ⟨hmem, hnd'⟩ : r.vector_id ∉ rest.map (fun s => s.vector_id) ∧
        (rest.map (fun s => s.vector_id)).Nodup := by
      simpa [List.nodup_cons] using hnd
    by_cases hx : (r.vector_id == x) = true
    · have hxid : r.vector_id = x := beq_iff_eq.mp hx
      have hrest0 : rest.countP (fun row => (row.vector_id == x) && q row) = 0 := by
        rw [List.countP_eq_zero]
        intro s hs
        simp only [Bool.and_eq_true, beq_iff_eq, not_and]
        intro he _
        exact hmem (by rw [hxid, ← he]; exact List.mem_map_of_mem _ hs)
      have hrestany : rest.any (fun row => (row.vector_id == x) && q row) = false := by
        rw [List.any_eq_false]
        intro s hs
        simp only [Bool.and_eq_true, beq_iff_eq, not_and]
        intro he _
        exact hmem (by rw [hxid, ← he]; exact List.mem_map_of_mem _ hs)
      by_cases hq : q r = true
      · simp [List.countP_cons, List.any_cons, hx, hq, hrest0, hrestany]
      · simp [List.countP_cons, List.any_cons, hx, hq, hrest0, hrestany,
          Bool.eq_false_iff.mpr hq]
    · simp only [List.countP_cons, List.any_cons, hx, Bool.false_and, if_false]
      simp only [Bool.false_or]
      rw [ih hnd']
      simp

/-- C5: over a table whose keys are pairwise distinct (the `vector_id`
PRIMARY KEY constraint), the fetch returns exactly one entry for each
identifier in the list that matches a row, zero entries for an identifier
matching no row (silent omission, no error — the function is total), and
the result can contain duplicate entries only if the identifier list
contains duplicates (in fact it never contains duplicates). -/
theorem spec_C5 (db : List ChunkRow) (ids : List String)
    (hkeys : (db.map (fun r => r.vector_id)).Nodup) :
    (∀ x, x ∈ ids → (∃ r, r ∈ db ∧ r.vector_id = x) →
      (fetch_metadata_from_sqlite db ids).countP (fun rec => rec.vector_id == x) = 1) ∧
    (∀ x, (∀ r, r ∈ db → r.vector_id ≠ x) →
      (fetch_metadata_from_sqlite db ids).countP (fun rec => rec.vector_id == x) = 0) ∧
    (fetch_metadata_from_sqlite db ids).Nodup ∧
    (¬ (fetch_metadata_from_sqlite db ids).Nodup → ¬ ids.Nodup) := by
  have hcount : ∀ x, (fetch_metadata_from_sqlite db ids).countP
      (fun rec => rec.vector_id == x) =
      if db.any (fun row => (row.vector_id == x) && ids.contains row.vector_id) then 1
      else 0 := by
    intro x
    unfold fetch_metadata_from_sqlite
    rw [List.countP_map]
    have hcomp : ((fun rec : FetchedRecord => rec.vector_id == x) ∘
        (fun row : ChunkRow =>
          ({ vector_id := row.vector_id, patent_number := row.patent_number,
             title := row.title, detailed_summary := row.detailed_summary } : FetchedRecord))) =
        fun row : ChunkRow => row.vector_id == x := rfl
    rw [hcomp, List.countP_filter]
    exact countP_key_nodup _ x db hkeys
  have hnodup : (fetch_metadata_from_sqlite db ids).Nodup := by
    have hdb : db.Nodup := hkeys.of_map
    have hfil : (db.filter (fun row => ids.contains row.vector_id)).Nodup := hdb.filter _
    have hinj := List.inj_on_of_nodup_map hkeys
    refine hfil.map_on ?_
    intro a ha b hb hfab
    have ha' := List.mem_of_mem_filter ha
    have hb' := List.mem_of_mem_filter hb
    have hid : a.vector_id = b.vector_id := congrArg FetchedRecord.vector_id hfab
    exact hinj ha' hb' hid
  refine ⟨?_, ?_, hnodup, fun h => (h hnodup).elim⟩
  · rintro x hx ⟨r, hr, hrx⟩
    rw [hcount x, if_pos]
    rw [List.any_eq_true]
    exact ⟨r, hr, by simp [hrx, hx]⟩
  · intro x hnone
    rw [hcount x, if_neg]
    rw [Bool.not_eq_true, List.any_eq_false]
    intro r hr
    simp [hnone r hr]

/-- Closed witness for C5: a two-row table queried with a duplicated
matched id and an unmatched id yields one entry for the match, none for
the miss, and no duplicate entries. -/
theorem spec_C5_witness :
    (dbW.map (fun r => r.vector_id)).Nodup ∧
    "id2" ∈ idsW ∧
    (fetch_metadata_from_sqlite dbW idsW).countP (fun rec => rec.vector_id == "id2") = 1 ∧
    (fetch_metadata_from_sqlite dbW idsW).countP (fun rec => rec.vector_id == "missing") = 0 ∧
    (fetch_metadata_from_sqlite dbW idsW).Nodup :=
  ⟨by decide, by decide,
   (spec_C5 dbW idsW (by decide)).1 "id2" (by decide)
     ⟨dbW.get ⟨1, by decide⟩, by decide, by decide⟩,
   (spec_C5 dbW idsW (by decide)).2.1 "missing" (by decide),
   (spec_C5 dbW idsW (by decide)).2.2.1⟩

/-- Counterexample for C6: two tables that differ only in the stored
`description` of a row produce identical fetch results, so the returned
records cannot carry the `description` (nor `abstract` / `claims_text`)
field as stored — the SELECT reads only four of the seven PatentRecord
columns. -/
theorem spec_C6_counterexample :
    fetch_metadata_from_sqlite
        [{ vector_id := "id1", patent_number := "P1", title := "T1",
           description := "a long description", abstract := "A", claims_text := "CL",
           detailed_summary := "S" }] ["id1"] =
      fetch_metadata_from_sqlite
        [{ vector_id := "id1", patent_number := "P1", title := "T1",
           description := "", abstract := "", claims_text := "",
           detailed_summary := "S" }] ["id1"] ∧
    ({ vector_id := "id1", patent_number := "P1", title := "T1",
       description := "a long description", abstract := "A", claims_text := "CL",
       detailed_summary := "S" } : ChunkRow) ≠
      { vector_id := "id1", patent_number := "P1", title := "T1",
        description := "", abstract := "", claims_text := "",
        detailed_summary := "S" } := by
  constructor <;> decide

/-- C6 (amended): when the vector index returns at least one match, the
records fetched from the metadata store and returned to the caller carry
exactly the four stored fields `vector_id`, `patent_number`, `title` and
`detailed_summary` of a matched table row; `description`, `abstract` and
`claims_text` are not fetched or returned.  The second conjunct traces the
fetched list into the router's response on the fresh specific path. -/
theorem spec_C6_amended :
    (∀ db ids rec, rec ∈ fetch_metadata_from_sqlite db ids →
      ∃ row, row ∈ db ∧ ids.contains row.vector_id = true ∧
        rec.vector_id = row.vector_id ∧ rec.patent_number = row.patent_number ∧
        rec.title = row.title ∧ rec.detailed_summary = row.detailed_summary) ∧
    (∀ (env : Env) (req : SearchRequest) (d : Nat) (ids : List String),
      relevantTurns req.history = [] →
      classify_query_type env (strTrim req.query) = "specific" →
      req.hybrid = false → req.summary = false →
      env.embed (strTrim req.query) = some d →
      env.pquery d none req.top_k = Except.ok ids →
      ids ≠ [] →
      route env req =
        (Except.ok { results := some (fetch_metadata_from_sqlite env.db ids) },
         { embedCalls := 1, indexQueryCalls := 1, dbFetchCalls := 1,
           classifyCalls := 1 })) := by
  constructor
  · intro db ids rec hrec
    unfold fetch_metadata_from_sqlite at hrec
    rw [List.mem_map] at hrec
    obtain ⟨row, hrow, hfeq⟩ := hrec
    rw [List.mem_filter] at hrow
    exact ⟨row, hrow.1, hrow.2, by rw [← hfeq], by rw [← hfeq], by rw [← hfeq],
      by rw [← hfeq]⟩
  · intro env req d ids h1 h2 h3 h4 h5 h6 h7
    obtain ⟨i, is, hIds⟩ := List.exists_cons_of_ne_nil h7
    simp [route, runRetrieval, h1, h2, h3, h4, h5, h6, hIds]

/-- Closed witness for C6 (amended): a concrete fetched record traces back
to its table row, and the router returns the fetched list on a concrete
fresh specific request. -/
theorem spec_C6_witness :
    (∃ row, row ∈ dbW ∧ (["id1"] : List String).contains row.vector_id = true ∧
      ("id1" : String) = row.vector_id ∧ ("P1" : String) = row.patent_number ∧
      ("T1" : String) = row.title ∧ ("S1" : String) = row.detailed_summary) ∧
    route envW6 reqW6 =
      (Except.ok
        { results := some [{ vector_id := "id1", patent_number := "P1",
                             title := "T1", detailed_summary := "S1" }] },
       { embedCalls := 1, indexQueryCalls := 1, dbFetchCalls := 1,
         classifyCalls := 1 }) :=
  ⟨spec_C6_amended.1 dbW ["id1"]
     { vector_id := "id1", patent_number := "P1", title := "T1",
       detailed_summary := "S1" } (by decide),
   by
    rw [spec_C6_amended.2 envW6 reqW6 7 ["id1"] (by decide) (by decide) rfl rfl rfl rfl
      (by decide)]
    decide⟩

/-- C10: the query-type classifier is total over provider outcomes — it
always returns one of the three labels, and returns `irrelevant` when the
provider call raises, yields no usable text, or yields text outside the
three labels; consequently, with the generation provider down, a fresh
non-overridden query takes the rejection path. -/
theorem spec_C10 :
    (∀ (env : Env) (q : String),
      classify_query_type env q = "irrelevant" ∨ classify_query_type env q = "generic" ∨
        classify_query_type env q = "specific") ∧
    (∀ (env : Env) (q e : String), env.genClassify q = GenOutcome.raiseErr e →
      classify_query_type env q = "irrelevant") ∧
    (∀ (env : Env) (q : String), env.genClassify q = GenOutcome.noText →
      classify_query_type env q = "irrelevant") ∧
    (∀ (env : Env) (q s : String), env.genClassify q = GenOutcome.text s →
      strLower (strTrim s) ≠ "irrelevant" → strLower (strTrim s) ≠ "generic" →
      strLower (strTrim s) ≠ "specific" →
      classify_query_type env q = "irrelevant") ∧
    (∀ (env : Env) (req : SearchRequest) (e : String),
      relevantTurns req.history = [] →
      forceSpecific (strTrim req.query) = false →
      env.genClassify (strTrim req.query) = GenOutcome.raiseErr e →
      route env req =
        (Except.ok
          { results := some []
            message := some "Your query is not relevant to patents or intellectual property." },
         { classifyCalls := 1 })) := by
  refine ⟨?_, ?_, ?_, ?_, ?_⟩
  · intro env q
    unfold classify_query_type
    cases h : env.genClassify q with
    | raiseErr m => simp
    | noText => simp
    | text s =>
      by_cases hc : (strLower (strTrim s) == "irrelevant" ||
          strLower (strTrim s) == "generic" || strLower (strTrim s) == "specific") = true
      · simp only [hc, if_true]
        rcases Bool.or_eq_true_iff.mp hc with h' | h'
        · rcases Bool.or_eq_true_iff.mp h' with h'' | h''
          · left; exact beq_iff_eq.mp h''
          · right; left; exact beq_iff_eq.mp h''
        · right; right; exact beq_iff_eq.mp h'
      · simp [hc]
  · intro env q e h
    unfold classify_query_type
    rw [h]
  · intro env q h
    unfold classify_query_type
    rw [h]
  · intro env q s h h1 h2 h3
    unfold classify_query_type
    rw [h]
    simp [h1, h2, h3]
  · intro env req e h1 h2 h3
    refine route_fresh_rejects env req h1 ?_ h2
    unfold classify_query_type
    rw [h3]

/-- Closed witness for C10: with every generation call raising, the
classifier returns `irrelevant` and a fresh query is rejected. -/
theorem spec_C10_witness :
    classify_query_type envOutage "any question at all" = "irrelevant" ∧
    route envOutage reqW10 =
      (Except.ok
        { results := some []
          message := some "Your query is not relevant to patents or intellectual property." },
       { classifyCalls := 1 }) :=
  ⟨spec_C10.2.1 envOutage "any question at all" "503 service unavailable" rfl,
   spec_C10.2.2.2.2 envOutage reqW10 "503 service unavailable" (by decide) (by decide) rfl⟩

end IntelliPatent
